import Mathlib

/-!
Verification development for the `structs` field-accessor core (`field.go`).

The Go code is shallowly embedded: reflection values become an inductive
tree of dynamically-typed values (`RVal`) paired with a settability flag
(`RefValue`, mirroring `reflect.Value`), and each method of `Field` becomes a
pure Lean function.  Mutation is explicit state passing: the `Set*` family
returns the outcome together with the Field after the call.  Panics are
modelled by a dedicated `fatal` outcome, distinct from the recoverable
`error` returns.  Machine integers are `Int`/`Nat` with explicit wrapping
at the kind's bit width.  Floating-point payloads carry an opaque bit
token (`Nat`); no arithmetic or rounding is performed on them anywhere in
the source, so none is modelled.
-/

namespace Structs

/-- Static metadata of one struct field, mirroring `reflect.StructField`
as used by the source: name, `PkgPath` (empty iff exported), the parsed
tag key/value pairs, and the anonymous (embedded) flag. -/
structure StructField where
  name : String
  pkgPath : String
  tagPairs : List (String × String)
  anonymous : Bool
deriving DecidableEq, Repr

/-- Dynamic kinds, mirroring `reflect.Kind` for the kinds the source
manipulates. -/
inductive Kind where
  | invalid
  | bool
  | int
  | int8
  | int16
  | int32
  | int64
  | uint
  | uint8
  | uint16
  | uint32
  | uint64
  | uintptr
  | float32
  | float64
  | string
  | struct
  | ptr
deriving DecidableEq, Repr

mutual
/-- Dynamically-typed runtime value (the payload of a `reflect.Value`).
`invalid` is the zero `reflect.Value`, also what `reflect.ValueOf(nil)`
yields.  Integer and float constructors carry their precise kind tag.
Pointers are structural: `ptrNil` is the nil pointer, `ptrTo x` points at
storage holding `x` (the embedding has no addresses, so pointer values
are identified by their target). -/
inductive RVal : Type where
  | invalid
  | boolV (b : Bool)
  | intV (k : Kind) (n : Int)
  | uintV (k : Kind) (n : Nat)
  | floatV (k : Kind) (bits : Nat)
  | stringV (s : String)
  | structV (fs : FieldsV)
  | ptrNil
  | ptrTo (x : RVal)
/-- The declared sub-fields of a struct value, in declaration order:
each carries its `StructField` descriptor and its current value. -/
inductive FieldsV : Type where
  | fnil
  | fcons (d : StructField) (v : RVal) (rest : FieldsV)
end

deriving instance DecidableEq for RVal
deriving instance DecidableEq for FieldsV

/-- Kind of a runtime value, as `reflect.Value.Kind` reports it. -/
def RVal.kind : RVal → Kind
  | .invalid => .invalid
  | .boolV _ => .bool
  | .intV k _ => k
  | .uintV k _ => k
  | .floatV k _ => k
  | .stringV _ => .string
  | .structV _ => .struct
  | .ptrNil => .ptr
  | .ptrTo _ => .ptr

/-- A `reflect.Value`: the runtime value plus the flag recording whether
in-place mutation through this handle is permitted (addressable and not
obtained through an unexported field). -/
structure RefValue where
  rv : RVal
  canAddr : Bool
deriving DecidableEq

/-- Mirrors `reflect.Value.CanSet`: false for the zero `Value`, otherwise
the handle's mutability flag. -/
def RefValue.CanSet (v : RefValue) : Bool :=
  match v.rv with
  | .invalid => false
  | _ => v.canAddr

/-- Mirrors `reflect.Indirect`: dereference a pointer value (the element
of a non-nil pointer is always addressable); a nil pointer yields the
zero `Value`; a non-pointer is returned unchanged. -/
def Indirect (v : RefValue) : RefValue :=
  match v.rv with
  | .ptrTo x => ⟨x, true⟩
  | .ptrNil => ⟨.invalid, false⟩
  | _ => v

/-- One-level dereference applied by `checkForSet` to the incoming value:
`reflect.ValueOf(val)` followed by `.Elem()` when the kind is `Ptr`
(the element of a nil pointer is the zero `Value`). -/
def derefOnce : RVal → RVal
  | .ptrTo x => x
  | .ptrNil => .invalid
  | v => v

mutual
/-- Mirrors Go type identity as `reflect.Value.Set` enforces it through
assignability: two values have the same type when their kinds agree and,
recursively, record values have identical shapes (same descriptors, same
sub-field types) and pointer values have pointees of the same type.  A
nil pointer carries no pointee type in the model, so it is type-compatible
with any pointer.  Named types are not modelled, so types are structural. -/
def sameType : RVal → RVal → Bool
  | .invalid, .invalid => true
  | .boolV _, .boolV _ => true
  | .intV k _, .intV j _ => k == j
  | .uintV k _, .uintV j _ => k == j
  | .floatV k _, .floatV j _ => k == j
  | .stringV _, .stringV _ => true
  | .structV fs, .structV gs => sameShape fs gs
  | .ptrNil, .ptrNil => true
  | .ptrNil, .ptrTo _ => true
  | .ptrTo _, .ptrNil => true
  | .ptrTo x, .ptrTo y => sameType x y
  | _, _ => false
/-- Two record shapes are the same type: identical descriptors (field
names, tags and visibility are part of a Go struct type) and same
sub-field types, in order. -/
def sameShape : FieldsV → FieldsV → Bool
  | .fnil, .fnil => true
  | .fcons d v r, .fcons e w t => d == e && sameType v w && sameShape r t
  | _, _ => false
end

mutual
/-- Mirrors `reflect.Zero(t).Interface()` on the value's own type: the
zero/default value of each kind (false, 0, empty string, nil pointer,
a struct of zeroed sub-fields). -/
def zeroLike : RVal → RVal
  | .invalid => .invalid
  | .boolV _ => .boolV false
  | .intV k _ => .intV k 0
  | .uintV k _ => .uintV k 0
  | .floatV k _ => .floatV k 0
  | .stringV _ => .stringV ""
  | .structV fs => .structV (zeroFields fs)
  | .ptrNil => .ptrNil
  | .ptrTo _ => .ptrNil
/-- Zero value of each declared sub-field, keeping descriptors. -/
def zeroFields : FieldsV → FieldsV
  | .fnil => .fnil
  | .fcons d v rest => .fcons d (zeroLike v) (zeroFields rest)
end

/-- Mirrors `reflect.DeepEqual` restricted to two values of the same
type: recursive structural value equality. -/
def deepEqual (a b : RVal) : Bool := a == b

mutual
/-- Modelled from the spec: the specification's independent description
of the is-zero test, "for composite types, equality is recursive over
all sub-fields/elements" — a direct recursive all-components-zero
predicate, to be compared against the code's `DeepEqual`-based `IsZero`. -/
def isZeroSpec : RVal → Bool
  | .invalid => true
  | .boolV b => b == false
  | .intV _ n => n == 0
  | .uintV _ n => n == 0
  | .floatV _ bits => bits == 0
  | .stringV s => s == ""
  | .structV fs => allZero fs
  | .ptrNil => true
  | .ptrTo _ => false
/-- Every declared sub-field holds its zero value. -/
def allZero : FieldsV → Bool
  | .fnil => true
  | .fcons _ v rest => isZeroSpec v && allZero rest
end

/-- The `Field` struct of the source: a runtime value handle for one
field's storage plus that field's static descriptor. -/
structure Field where
  value : RefValue
  field : StructField
deriving DecidableEq

/-- Mirrors `Field.Tag`: the value for `key` in the tag, or the empty
string when absent. -/
def Field.Tag (f : Field) (key : String) : String :=
  match f.field.tagPairs.lookup key with
  | some v => v
  | none => ""

/-- Mirrors `Field.IsEmbedded`. -/
def Field.IsEmbedded (f : Field) : Bool := f.field.anonymous

/-- Mirrors `Field.IsExported`: `PkgPath` is empty exactly for exported
fields. -/
def Field.IsExported (f : Field) : Bool := f.field.pkgPath == ""

/-- Mirrors `Field.Name`. -/
def Field.Name (f : Field) : String := f.field.name

/-- Mirrors `Field.Kind`: the kind of the wrapped value. -/
def Field.Kind (f : Field) := f.value.rv.kind

/-- Outcomes of a read (`Value`, `IsZero`, traversal): a normal result,
or a panic (`fatal`). -/
inductive ReadResult (α : Type) where
  | ok (a : α)
  | fatal
deriving DecidableEq, Repr

/-- Mirrors `Field.Value`, i.e. `f.value.Interface()`: panics on the zero
`Value` and on a handle obtained from a non-exported field (the
read-only flag); otherwise returns the boxed dynamic value. -/
def Field.Value (f : Field) : ReadResult RVal :=
  if f.value.rv = .invalid then .fatal
  else if f.IsExported then .ok f.value.rv
  else .fatal

/-- Mirrors `Field.IsZero`: `reflect.Zero(f.value.Type())` panics on the
zero `Value`; `f.Value()` panics when the field is not exported;
otherwise the result is `DeepEqual(current, zero)`. -/
def Field.IsZero (f : Field) : ReadResult Bool :=
  if f.value.rv = .invalid then .fatal
  else if f.IsExported then .ok (deepEqual f.value.rv (zeroLike f.value.rv))
  else .fatal

/-- The recoverable errors of the `Set*` family: `errNotExported`,
`errNotSettable`, and the `fmt.Errorf("wrong kind: ...")` mismatch
carrying the incoming (got) and expected (want) kinds. -/
inductive SetErr where
  | notExported
  | notSettable
  | wrongKind (got want : Kind)
deriving DecidableEq, Repr

/-- Outcome of a mutating call: success, a returned recoverable error,
or a panic (`fatal`). -/
inductive SetOutcome where
  | ok
  | err (e : SetErr)
  | fatal
deriving DecidableEq, Repr

/-- Mirrors `Field.checkForSet`: `NotExported` when the field is not
exported, then `NotSettable` when the target handle cannot be written,
then the incoming value dereferenced one level when it is a pointer. -/
def Field.checkForSet (f : Field) (v : RefValue) (val : RVal) : Except SetErr RVal :=
  if !f.IsExported then .error .notExported
  else if !v.CanSet then .error .notSettable
  else .ok (derefOnce val)

/-- Writing `g` through `Indirect f.value` (as `v.Set`/`v.SetInt`/... do):
when the field wraps a pointer the pointee storage is replaced, otherwise
the field's own storage is replaced.  The descriptor and the handle flag
are untouched. -/
def Field.storeIndirect (f : Field) (g : RVal) : Field :=
  match f.value.rv with
  | .ptrTo _ => { f with value := { f.value with rv := .ptrTo g } }
  | _ => { f with value := { f.value with rv := g } }

/-- Mirrors `Field.Set`: indirect the target, run `checkForSet`, compare
the target kind with the (dereferenced) incoming kind, and on match call
`v.Set(given)`, which panics when the incoming value's type is not
assignable to the target's type (possible even with equal kinds, e.g.
two differently-shaped record types) and otherwise replaces the storage
content with the incoming value. -/
def Field.Set (f : Field) (val : RVal) : SetOutcome × Field :=
  let v := Indirect f.value
  match f.checkForSet v val with
  | .error e => (.err e, f)
  | .ok given =>
    if v.rv.kind ≠ given.kind then (.err (.wrongKind given.kind v.rv.kind), f)
    else if sameType v.rv given then (.ok, f.storeIndirect given)
    else (.fatal, f)

/-- The signed-integer kind family accepted by `reflect.Value.SetInt`. -/
def isSignedIntKind : Kind → Bool
  | .int | .int8 | .int16 | .int32 | .int64 => true
  | _ => false

/-- The floating-point kind family accepted by `reflect.Value.SetFloat`. -/
def isFloatKind : Kind → Bool
  | .float32 | .float64 => true
  | _ => false

/-- The unsigned-integer kind family accepted by `reflect.Value.SetUint`. -/
def isUintKind : Kind → Bool
  | .uint | .uint8 | .uint16 | .uint32 | .uint64 | .uintptr => true
  | _ => false

/-- Bit width of a signed integer kind (the machine `int` is 64-bit). -/
def intBits : Kind → Nat
  | .int8 => 8
  | .int16 => 16
  | .int32 => 32
  | _ => 64

/-- Bit width of an unsigned integer kind. -/
def uintBits : Kind → Nat
  | .uint8 => 8
  | .uint16 => 16
  | .uint32 => 32
  | _ => 64

/-- Two's-complement truncation of an `int64` to `w` bits, as the
reflect store performs silently. -/
def wrapInt (w : Nat) (x : Int) : Int :=
  (x + 2 ^ (w - 1)) % (2 ^ w : Nat) - 2 ^ (w - 1)

/-- Truncation of a `uint64` to `w` bits. -/
def wrapUint (w : Nat) (x : Nat) : Nat := x % 2 ^ w

/-- Mirrors `Field.SetInt`: the shared check, then `v.SetInt(val)`,
which panics unless the target kind is in the signed integer family and
otherwise stores the value truncated to the target width. -/
def Field.SetInt (f : Field) (val : Int) : SetOutcome × Field :=
  let v := Indirect f.value
  match f.checkForSet v (.intV .int64 val) with
  | .error e => (.err e, f)
  | .ok _ =>
    if isSignedIntKind v.rv.kind then
      (.ok, f.storeIndirect (.intV v.rv.kind (wrapInt (intBits v.rv.kind) val)))
    else (.fatal, f)

/-- Mirrors `Field.SetFloat`: the shared check, then `v.SetFloat(val)`,
which panics unless the target kind is a float kind.  The float payload
is an opaque bit token; conversion between widths is not modelled since
no claim observes a stored float. -/
def Field.SetFloat (f : Field) (val : Nat) : SetOutcome × Field :=
  let v := Indirect f.value
  match f.checkForSet v (.floatV .float64 val) with
  | .error e => (.err e, f)
  | .ok _ =>
    if isFloatKind v.rv.kind then
      (.ok, f.storeIndirect (.floatV v.rv.kind val))
    else (.fatal, f)

/-- Mirrors `Field.SetUint`: the shared check, then `v.SetUint(val)`,
which panics unless the target kind is in the unsigned integer family
and otherwise stores the value truncated to the target width. -/
def Field.SetUint (f : Field) (val : Nat) : SetOutcome × Field :=
  let v := Indirect f.value
  match f.checkForSet v (.uintV .uint64 val) with
  | .error e => (.err e, f)
  | .ok _ =>
    if isUintKind v.rv.kind then
      (.ok, f.storeIndirect (.uintV v.rv.kind (wrapUint (uintBits v.rv.kind) val)))
    else (.fatal, f)

/-- Modelled from the spec: the helper `strctVal` called by `FieldOk` is
not part of this source file.  Per the spec, traversal "requires the
value to be record-shaped and exported; violating that is fatal", and a
reference/pointer value stands for the record it refers to, so pointer
levels are unwrapped; anything that does not reach a record is fatal.
The boolean accumulator records whether a pointer was unwrapped, which
is what makes the resulting sub-field handles addressable. -/
def strctValLoop : RVal → Bool → ReadResult (FieldsV × Bool)
  | .ptrTo x, _ => strctValLoop x true
  | .structV fs, addr => .ok (fs, addr)
  | _, _ => .fatal

/-- Modelled from the spec: entry point of `strctVal` on a freshly boxed
(hence non-addressable) value. -/
def strctVal (v : RVal) : ReadResult (FieldsV × Bool) := strctValLoop v false

/-- Lookup of a declared sub-field by name (mirrors
`reflect.Type.FieldByName` on a flat struct): first declared field with
that name. -/
def FieldsV.lookupName : FieldsV → String → Option (StructField × RVal)
  | .fnil, _ => none
  | .fcons d v rest, n => if d.name = n then some (d, v) else rest.lookupName n

/-- Mirrors `Field.FieldOk`: box the current value (panics when the
field is not exported), require it to be record-shaped via `strctVal`,
then look up the name; absent names yield `(none, false)` without
failing, present names yield the sub-field accessor whose handle is
settable only when a pointer was unwrapped and the sub-field is
exported. -/
def Field.FieldOk (f : Field) (n : String) : ReadResult (Option Field × Bool) :=
  if f.IsExported then
    match strctVal f.value.rv with
    | .fatal => .fatal
    | .ok (fs, addr) =>
      match fs.lookupName n with
      | none => .ok (none, false)
      | some (d, v) => .ok (some ⟨⟨v, addr && (d.pkgPath == "")⟩, d⟩, true)
  else .fatal

set_option linter.dupNamespace false in
/-- Mirrors `Field.Field`: `FieldOk`, turning "not found" into a panic. -/
def Field.Field (f : Field) (n : String) : ReadResult Field :=
  match f.FieldOk n with
  | .fatal => .fatal
  | .ok (some fld, true) => .ok fld
  | .ok (_, _) => .fatal

/-! Concrete fixtures used by the per-claim counterexamples and
witnesses. -/

/-- An exported descriptor named `A`. -/
def dA : StructField := ⟨"A", "", [], false⟩

/-- A non-exported descriptor (non-empty `PkgPath`). -/
def dPriv : StructField := ⟨"a", "structs", [], false⟩

/-- Exported, settable pointer-kind field whose pointee is an `int`. -/
def c1f : Field := ⟨⟨.ptrTo (.intV .int 0), true⟩, dA⟩

/-- A pointer value whose pointee is a string. -/
def c1b : RVal := .ptrTo (.stringV "s")

/-- Exported, settable `int` field holding 1. -/
def c1g : Field := ⟨⟨.intV .int 1, true⟩, dA⟩

/-- Exported, settable `int` field holding 7. -/
def c2f : Field := ⟨⟨.intV .int 7, true⟩, dA⟩

/-- Exported, settable `string` field. -/
def c3f : Field := ⟨⟨.stringV "q", true⟩, dA⟩

/-- Exported, settable pointer field whose pointee is an `int`
(declared kind Ptr), for the C2 counterexample. -/
def c2p : Field := ⟨⟨.ptrTo (.intV .int 0), true⟩, dA⟩

/-- Exported, settable pointer field whose pointee is an `int`
(declared kind Ptr), for the C3 counterexample. -/
def c3p : Field := ⟨⟨.ptrTo (.intV .int 0), true⟩, dA⟩

/-- Non-exported, non-settable `int` field. -/
def c4f : Field := ⟨⟨.intV .int 5, false⟩, dPriv⟩

/-- Non-exported field with a settable handle. -/
def c5ne : Field := ⟨⟨.intV .int 0, true⟩, dPriv⟩

/-- Exported, non-settable `int` field. -/
def c5e : Field := ⟨⟨.intV .int 3, false⟩, dA⟩

/-- Exported struct-valued field whose two sub-fields hold zero values. -/
def c6f : Field :=
  ⟨⟨.structV (.fcons ⟨"X", "", [], false⟩ (.intV .int 0)
      (.fcons ⟨"Y", "", [], false⟩ (.stringV "") .fnil)), false⟩, dA⟩

/-- Exported struct-valued field with one declared sub-field `Sub`. -/
def c7f : Field :=
  ⟨⟨.structV (.fcons ⟨"Sub", "", [], false⟩ (.intV .int 7) .fnil), false⟩, dA⟩

/-- Exported, settable pointer-kind field whose pointee is an `int`. -/
def c8f : Field := ⟨⟨.ptrTo (.intV .int 0), true⟩, dA⟩

/-- A pointer value, itself the `x` handed to `Set` directly or behind
one more indirection. -/
def c8x : RVal := .ptrTo (.intV .int 5)

/-- Exported, settable `bool` field. -/
def c10f : Field := ⟨⟨.boolV true, true⟩, dA⟩

/-! General lemmas about the embedding. -/

/-- A value whose kind is not `invalid` is not the invalid value. -/
theorem RVal.ne_invalid_of_kind {b : RVal} (h : b.kind ≠ Kind.invalid) :
    b ≠ .invalid := by
  cases b <;> simp_all [RVal.kind]

/-- The one-level dereference leaves non-pointer values unchanged. -/
theorem derefOnce_of_ne_ptr {b : RVal} (h : b.kind ≠ Kind.ptr) :
    derefOnce b = b := by
  cases b <;> simp_all [derefOnce, RVal.kind]

/-- `Indirect` leaves non-pointer handles unchanged. -/
theorem Indirect_of_ne_ptr {v : RefValue} (h : v.rv.kind ≠ Kind.ptr) :
    Indirect v = v := by
  obtain ⟨rv, ca⟩ := v
  cases rv <;> simp_all [Indirect, RVal.kind]

/-- Storing through a non-pointer field replaces its storage directly. -/
theorem storeIndirect_of_ne_ptr {f : Field} (g : RVal)
    (h : f.value.rv.kind ≠ Kind.ptr) :
    f.storeIndirect g = { f with value := { f.value with rv := g } } := by
  obtain ⟨⟨rv, ca⟩, d⟩ := f
  cases rv <;> simp_all [Field.storeIndirect, RVal.kind]

/-- The shared mismatch behaviour of `Set`: on an exported, settable
target, an incoming value whose dereferenced kind differs from the
target kind produces the wrong-kind error and an unchanged field. -/
theorem set_wrongKind (f : Field) (val : RVal)
    (hx : f.IsExported = true) (hs : (Indirect f.value).CanSet = true)
    (hk : (derefOnce val).kind ≠ (Indirect f.value).rv.kind) :
    f.Set val =
      (SetOutcome.err (SetErr.wrongKind (derefOnce val).kind (Indirect f.value).rv.kind), f) := by
  have h1 : f.checkForSet (Indirect f.value) val = .ok (derefOnce val) := by
    simp [Field.checkForSet, hx, hs]
  have h2 : (Indirect f.value).rv.kind ≠ (derefOnce val).kind := fun e => hk e.symm
  simp [Field.Set, h1, h2]

/-- The setters preserve the descriptor and the handle flag. -/
theorem storeIndirect_field (f : Field) (g : RVal) :
    (f.storeIndirect g).field = f.field ∧
    (f.storeIndirect g).value.canAddr = f.value.canAddr := by
  obtain ⟨⟨rv, ca⟩, d⟩ := f
  cases rv <;> simp [Field.storeIndirect]

mutual
/-- A value equals its own zero value exactly when the spec's recursive
zero predicate holds. -/
theorem zero_iff (v : RVal) : (v = zeroLike v) ↔ isZeroSpec v = true := by
  cases v with
  | invalid => simp [zeroLike, isZeroSpec]
  | boolV b => cases b <;> simp [zeroLike, isZeroSpec]
  | intV k n => simp [zeroLike, isZeroSpec]
  | uintV k n => simp [zeroLike, isZeroSpec]
  | floatV k bits => simp [zeroLike, isZeroSpec]
  | stringV s => simp [zeroLike, isZeroSpec]
  | structV fs => simpa [zeroLike, isZeroSpec] using zeroF_iff fs
  | ptrNil => simp [zeroLike, isZeroSpec]
  | ptrTo x => simp [zeroLike, isZeroSpec]
/-- Sub-field lists: equality with the zeroed list is the all-zero
predicate. -/
theorem zeroF_iff (fs : FieldsV) : (fs = zeroFields fs) ↔ allZero fs = true := by
  cases fs with
  | fnil => simp [zeroFields, allZero]
  | fcons d v rest =>
      rw [allZero, Bool.and_eq_true, ← zero_iff v, ← zeroF_iff rest]
      simp [zeroFields]
end

/-- `DeepEqual` against the zero value computes the spec's recursive
zero predicate. -/
theorem deepEqual_zeroLike (v : RVal) :
    deepEqual v (zeroLike v) = isZeroSpec v := by
  cases h : isZeroSpec v with
  | true =>
      have hv : v = zeroLike v := (zero_iff v).mpr h
      simp [deepEqual, ← hv, h]
  | false =>
      simp only [deepEqual, beq_eq_false_iff_ne, ne_eq]
      intro hc
      rw [(zero_iff v).mp hc] at h
      simp at h

/-- Helper fixture: the sub-field list of `c7f`. -/
def c7fs : FieldsV := .fcons ⟨"Sub", "", [], false⟩ (.intV .int 7) .fnil

/-- C1: as frozen, the round-trip law fails on the code: an exported,
settable pointer-kind field and a pointer value `b` of that same
(pointer) kind whose pointee kind differs from the field's pointee kind
make `Set(b)` return a wrong-kind error, and `Value()` then yields the
old value, not `b`. -/
theorem c1_counterexample :
    c1f.IsExported = true ∧ (Indirect c1f.value).CanSet = true ∧
    c1b.kind = c1f.Kind ∧
    ¬((c1f.Set c1b).1 = SetOutcome.ok ∧ (c1f.Set c1b).2.Value = ReadResult.ok c1b) := by
  decide

/-- C1 (amended): for every exported, settable field whose kind K is a
valid non-pointer kind and every value `b` of matching kind K whose type
is the field's type (for scalar kinds this is just kind K; for record
kinds, the same record shape — otherwise the assignment panics),
`Set(b)` succeeds and a subsequent `Value()` returns `b`, regardless of
the field's previous value. -/
theorem c1_roundtrip (f : Field) (b : RVal)
    (hx : f.IsExported = true) (hs : (Indirect f.value).CanSet = true)
    (hkp : f.Kind ≠ Kind.ptr) (hki : f.Kind ≠ Kind.invalid)
    (hb : b.kind = f.Kind) (ht : sameType f.value.rv b = true) :
    (f.Set b).1 = SetOutcome.ok ∧ (f.Set b).2.Value = ReadResult.ok b := by
  have hvp : f.value.rv.kind ≠ Kind.ptr := hkp
  have hI : Indirect f.value = f.value := Indirect_of_ne_ptr hvp
  rw [hI] at hs
  have hbp : b.kind ≠ Kind.ptr := by rw [hb]; exact hkp
  have hbi : b ≠ RVal.invalid := RVal.ne_invalid_of_kind (by rw [hb]; exact hki)
  have hder : derefOnce b = b := derefOnce_of_ne_ptr hbp
  have hck : f.checkForSet f.value b = Except.ok b := by
    simp [Field.checkForSet, hx, hs, hder]
  have hkind : ¬(f.value.rv.kind ≠ b.kind) := by
    rw [hb]; simp [Field.Kind]
  have hset : f.Set b = (SetOutcome.ok, f.storeIndirect b) := by
    simp [Field.Set, hI, hck, hkind, ht]
  have hst : f.storeIndirect b = { f with value := { f.value with rv := b } } :=
    storeIndirect_of_ne_ptr b hvp
  rw [hset, hst]
  refine ⟨rfl, ?_⟩
  have hx2 : Field.IsExported { f with value := { f.value with rv := b } } = true := hx
  simp [Field.Value, hbi, hx2]

/-- C1 witness: the amended round trip at an `int` field holding 1 and
the incoming value 42. -/
theorem c1_roundtrip_witness :
    c1g.IsExported = true ∧ (Indirect c1g.value).CanSet = true ∧
    c1g.Kind ≠ Kind.ptr ∧ c1g.Kind ≠ Kind.invalid ∧
    (RVal.intV Kind.int 42).kind = c1g.Kind ∧
    sameType c1g.value.rv (RVal.intV Kind.int 42) = true ∧
    (c1g.Set (RVal.intV Kind.int 42)).1 = SetOutcome.ok ∧
    (c1g.Set (RVal.intV Kind.int 42)).2.Value = ReadResult.ok (RVal.intV Kind.int 42) :=
  ⟨by decide, by decide, by decide, by decide, by decide, by decide,
   (c1_roundtrip c1g (RVal.intV Kind.int 42) (by decide) (by decide) (by decide)
     (by decide) (by decide) (by decide)).1,
   (c1_roundtrip c1g (RVal.intV Kind.int 42) (by decide) (by decide) (by decide)
     (by decide) (by decide) (by decide)).2⟩

/-- C2: as frozen, the claim fails on the code: on an exported, settable
pointer-to-int field (declared kind Ptr), `Set(5)` has dereferenced
incoming kind `int`, different from the declared kind, yet the call
succeeds and overwrites the pointee, because the code compares against
the kind of the one-level-indirected target, not the declared kind. -/
theorem c2_counterexample :
    c2p.IsExported = true ∧ (Indirect c2p.value).CanSet = true ∧
    (derefOnce (RVal.intV Kind.int 5)).kind ≠ c2p.Kind ∧
    (c2p.Set (RVal.intV Kind.int 5)).1 = SetOutcome.ok ∧
    (c2p.Set (RVal.intV Kind.int 5)).2 ≠ c2p := by
  decide

/-- C2 (amended): on an exported, settable field, `Set` with an incoming
value whose one-level-dereferenced dynamic kind differs from the kind of
the one-level-indirected target — the declared kind, except for pointer
fields, where it is the pointee's kind — returns the wrong-kind error
and leaves the field exactly as it was. -/
theorem c2_kind_mismatch (f : Field) (val : RVal)
    (hx : f.IsExported = true) (hs : (Indirect f.value).CanSet = true)
    (hk : (derefOnce val).kind ≠ (Indirect f.value).rv.kind) :
    (f.Set val).1 =
      SetOutcome.err (SetErr.wrongKind (derefOnce val).kind (Indirect f.value).rv.kind) ∧
    (f.Set val).2 = f := by
  rw [set_wrongKind f val hx hs hk]
  exact ⟨rfl, rfl⟩

/-- C2 witness: a string into an `int` field. -/
theorem c2_witness :
    c2f.IsExported = true ∧ (Indirect c2f.value).CanSet = true ∧
    (c2f.Set (RVal.stringV "x")).1 =
      SetOutcome.err (SetErr.wrongKind Kind.string Kind.int) ∧
    (c2f.Set (RVal.stringV "x")).2 = c2f :=
  ⟨by decide, by decide,
   (c2_kind_mismatch c2f (RVal.stringV "x") (by decide) (by decide) (by decide)).1,
   (c2_kind_mismatch c2f (RVal.stringV "x") (by decide) (by decide) (by decide)).2⟩

/-- C3: as frozen, the claim fails on the code: an exported, settable
pointer-to-int field has declared kind Ptr, outside the signed integer
family, yet `SetInt(5)` succeeds and stores into the pointee, because
the family constraint applies to the one-level-indirected target, not to
the field's declared kind. -/
theorem c3_counterexample :
    c3p.IsExported = true ∧ (Indirect c3p.value).CanSet = true ∧
    isSignedIntKind c3p.Kind = false ∧
    (c3p.SetInt 5).1 = SetOutcome.ok ∧
    (c3p.SetInt 5).2 ≠ c3p := by
  decide

/-- C3 (amended): after the shared precondition check passes on an
exported, settable field, the numeric setters perform no kind check: a
one-level-indirected target kind (the declared kind, except for pointer
fields, where it is the pointee's kind) outside the setter's numeric
family makes each call fail fatally (panic), never by returning a
recoverable error. -/
theorem c3_numeric_setters_fatal (f : Field) (n : Int) (x u : Nat)
    (hx : f.IsExported = true) (hs : (Indirect f.value).CanSet = true) :
    (isSignedIntKind (Indirect f.value).rv.kind = false →
      f.SetInt n = (SetOutcome.fatal, f)) ∧
    (isFloatKind (Indirect f.value).rv.kind = false →
      f.SetFloat x = (SetOutcome.fatal, f)) ∧
    (isUintKind (Indirect f.value).rv.kind = false →
      f.SetUint u = (SetOutcome.fatal, f)) := by
  have hck : ∀ w, f.checkForSet (Indirect f.value) w = Except.ok (derefOnce w) := by
    intro w; simp [Field.checkForSet, hx, hs]
  refine ⟨fun h => ?_, fun h => ?_, fun h => ?_⟩ <;>
    simp [Field.SetInt, Field.SetFloat, Field.SetUint, hck, h]

/-- C3 witness: all three numeric setters panic on a string field. -/
theorem c3_witness :
    c3f.SetInt 1 = (SetOutcome.fatal, c3f) ∧
    c3f.SetFloat 1 = (SetOutcome.fatal, c3f) ∧
    c3f.SetUint 1 = (SetOutcome.fatal, c3f) :=
  ⟨(c3_numeric_setters_fatal c3f 1 1 1 (by decide) (by decide)).1 (by decide),
   (c3_numeric_setters_fatal c3f 1 1 1 (by decide) (by decide)).2.1 (by decide),
   (c3_numeric_setters_fatal c3f 1 1 1 (by decide) (by decide)).2.2 (by decide)⟩

/-- C4: on a non-exported field each of the four setters returns
`NotExported` and leaves the field unchanged; no settability hypothesis
is needed, so a field that is both non-exported and non-settable also
yields `NotExported` (the export check comes first in `checkForSet`). -/
theorem c4_not_exported (f : Field) (val : RVal) (n : Int) (x u : Nat)
    (hx : f.IsExported = false) :
    f.Set val = (SetOutcome.err SetErr.notExported, f) ∧
    f.SetInt n = (SetOutcome.err SetErr.notExported, f) ∧
    f.SetFloat x = (SetOutcome.err SetErr.notExported, f) ∧
    f.SetUint u = (SetOutcome.err SetErr.notExported, f) := by
  have hck : ∀ v w, f.checkForSet v w = Except.error SetErr.notExported := by
    intro v w; simp [Field.checkForSet, hx]
  refine ⟨?_, ?_, ?_, ?_⟩ <;>
    simp [Field.Set, Field.SetInt, Field.SetFloat, Field.SetUint, hck]

/-- C4 witness: a non-exported, non-settable field. -/
theorem c4_witness :
    c4f.Set (RVal.intV Kind.int 9) = (SetOutcome.err SetErr.notExported, c4f) ∧
    c4f.SetInt 9 = (SetOutcome.err SetErr.notExported, c4f) ∧
    c4f.SetFloat 9 = (SetOutcome.err SetErr.notExported, c4f) ∧
    c4f.SetUint 9 = (SetOutcome.err SetErr.notExported, c4f) :=
  c4_not_exported c4f (RVal.intV Kind.int 9) 9 9 9 (by decide)

/-- C5: `Value` and `IsZero` on a non-exported field fail fatally
(panic), not by returning an error; on an exported field (holding a
valid value, as every field produced by the library does) both succeed.
Both operations are pure reads: they return no new field state. -/
theorem c5_read_export_policy (f : Field) :
    (f.IsExported = false → f.Value = ReadResult.fatal ∧ f.IsZero = ReadResult.fatal) ∧
    (f.IsExported = true → f.value.rv ≠ RVal.invalid →
      (∃ r, f.Value = ReadResult.ok r) ∧ (∃ b, f.IsZero = ReadResult.ok b)) := by
  constructor
  · intro hx
    constructor <;>
      · by_cases h : f.value.rv = RVal.invalid <;> simp [Field.Value, Field.IsZero, h, hx]
  · intro hx hv
    exact ⟨⟨f.value.rv, by simp [Field.Value, hv, hx]⟩,
           ⟨deepEqual f.value.rv (zeroLike f.value.rv), by simp [Field.IsZero, hv, hx]⟩⟩

/-- C5 witness: a non-exported field panics on both reads; an exported
field succeeds on both. -/
theorem c5_witness :
    (c5ne.Value = ReadResult.fatal ∧ c5ne.IsZero = ReadResult.fatal) ∧
    ((∃ r, c5e.Value = ReadResult.ok r) ∧ (∃ b, c5e.IsZero = ReadResult.ok b)) :=
  ⟨(c5_read_export_policy c5ne).1 (by decide),
   (c5_read_export_policy c5e).2 (by decide) (by decide)⟩

/-- C6: on an exported field, `IsZero` returns true exactly when the
current value is deep-structurally equal (recursively over all
sub-fields, by value and not identity) to the zero value of its type:
the `DeepEqual`-against-`reflect.Zero` computation coincides with the
spec's recursive zero predicate `isZeroSpec`. -/
theorem c6_iszero (f : Field) (hx : f.IsExported = true)
    (hv : f.value.rv ≠ RVal.invalid) :
    f.IsZero = ReadResult.ok (isZeroSpec f.value.rv) := by
  simp [Field.IsZero, hv, hx, deepEqual_zeroLike]

/-- C6 witness: a struct field whose sub-fields all hold zero values is
reported zero. -/
theorem c6_witness :
    c6f.IsExported = true ∧ c6f.value.rv ≠ RVal.invalid ∧
    c6f.IsZero = ReadResult.ok (isZeroSpec c6f.value.rv) ∧
    isZeroSpec c6f.value.rv = true :=
  ⟨by decide, by decide, c6_iszero c6f (by decide) (by decide), by decide⟩

/-- C7: on an exported, record-shaped field value, `FieldOk` with a name
that is not a declared sub-field returns `(none, false)` without
failing, while `Field` with the same name fails fatally; with a declared
sub-field name, `FieldOk` returns that sub-field's accessor and
`found = true`. -/
theorem c7_fieldok (f : Field) (fs : FieldsV) (addr : Bool) (n : String)
    (hx : f.IsExported = true)
    (hs : strctVal f.value.rv = ReadResult.ok (fs, addr)) :
    (fs.lookupName n = none →
      f.FieldOk n = ReadResult.ok (none, false) ∧ f.Field n = ReadResult.fatal) ∧
    (∀ d v, fs.lookupName n = some (d, v) →
      f.FieldOk n = ReadResult.ok (some ⟨⟨v, addr && (d.pkgPath == "")⟩, d⟩, true)) := by
  constructor
  · intro h
    have hok : f.FieldOk n = ReadResult.ok (none, false) := by
      simp [Field.FieldOk, hx, hs, h]
    exact ⟨hok, by simp [Field.Field, hok]⟩
  · intro d v h
    simp [Field.FieldOk, hx, hs, h]

/-- C7 witness: on a record with one declared sub-field `Sub`, the name
`Missing` yields `(none, false)` from `FieldOk` and a panic from
`Field`, while `Sub` is found. -/
theorem c7_witness :
    c7f.FieldOk "Missing" = ReadResult.ok (none, false) ∧
    c7f.Field "Missing" = ReadResult.fatal ∧
    c7f.FieldOk "Sub" =
      ReadResult.ok
        (some ⟨⟨RVal.intV Kind.int 7, false⟩, ⟨"Sub", "", [], false⟩⟩, true) :=
  ⟨((c7_fieldok c7f c7fs false "Missing" (by decide) (by decide)).1 (by decide)).1,
   ((c7_fieldok c7f c7fs false "Missing" (by decide) (by decide)).1 (by decide)).2,
   (c7_fieldok c7f c7fs false "Sub" (by decide) (by decide)).2
     ⟨"Sub", "", [], false⟩ (RVal.intV Kind.int 7) (by decide)⟩

/-- C8: as frozen, the claim fails on the code when `x` is itself a
pointer value: on an exported, settable pointer field whose pointee is
an `int`, `Set(x)` with `x` a pointer-to-int succeeds, while
`Set(&x)` dereferences only one level, compares the pointer kind with
the `int` target kind, and returns a wrong-kind error instead. -/
theorem c8_counterexample :
    c8f.IsExported = true ∧ (Indirect c8f.value).CanSet = true ∧
    c8f.Set (RVal.ptrTo c8x) ≠ c8f.Set c8x := by
  decide

/-- C8 (amended): for every value `x` that is not itself pointer-kind,
`Set` applied to a single-indirection pointer to `x` behaves identically
to `Set` applied to `x`: same result and same final field state, for
every field. -/
theorem c8_set_deref (f : Field) (x : RVal) (hp : x.kind ≠ Kind.ptr) :
    f.Set (RVal.ptrTo x) = f.Set x := by
  have hck : f.checkForSet (Indirect f.value) (RVal.ptrTo x)
      = f.checkForSet (Indirect f.value) x := by
    unfold Field.checkForSet
    rw [show derefOnce (RVal.ptrTo x) = x from rfl, derefOnce_of_ne_ptr hp]
  simp only [Field.Set]
  rw [hck]

/-- C8 witness: passing the `int` 5 directly or behind one indirection
into a pointer-to-int field gives identical outcomes. -/
theorem c8_set_deref_witness :
    (RVal.intV Kind.int 5).kind ≠ Kind.ptr ∧
    c8f.Set (RVal.ptrTo (RVal.intV Kind.int 5)) = c8f.Set (RVal.intV Kind.int 5) :=
  ⟨by decide, c8_set_deref c8f (RVal.intV Kind.int 5) (by decide)⟩

/-- C9: no operation modifies the descriptor after construction: each of
the four `Set*` calls returns a field whose `StructField` descriptor
(name, tag string, anonymous flag, export visibility) is the original
one; every other public operation is a pure read in this embedding and
returns no field state at all, so only the referenced storage can
change, and only through `Set*`. -/
theorem c9_descriptor_immutable (f : Field) (val : RVal) (n : Int) (x u : Nat) :
    ((f.Set val).2).field = f.field ∧ ((f.SetInt n).2).field = f.field ∧
    ((f.SetFloat x).2).field = f.field ∧ ((f.SetUint u).2).field = f.field := by
  have hfield : ∀ g, (f.storeIndirect g).field = f.field :=
    fun g => (storeIndirect_field f g).1
  refine ⟨?_, ?_, ?_, ?_⟩
  · cases h : f.checkForSet (Indirect f.value) val with
    | error e => simp [Field.Set, h]
    | ok g =>
        by_cases hk : (Indirect f.value).rv.kind ≠ g.kind
        · simp [Field.Set, h, hk]
        · by_cases ht : sameType (Indirect f.value).rv g <;>
            simp [Field.Set, h, hk, ht, hfield]
  · cases h : f.checkForSet (Indirect f.value) (.intV .int64 n) with
    | error e => simp [Field.SetInt, h]
    | ok g =>
        by_cases hk : isSignedIntKind (Indirect f.value).rv.kind <;>
          simp [Field.SetInt, h, hk, hfield]
  · cases h : f.checkForSet (Indirect f.value) (.floatV .float64 x) with
    | error e => simp [Field.SetFloat, h]
    | ok g =>
        by_cases hk : isFloatKind (Indirect f.value).rv.kind <;>
          simp [Field.SetFloat, h, hk, hfield]
  · cases h : f.checkForSet (Indirect f.value) (.uintV .uint64 u) with
    | error e => simp [Field.SetUint, h]
    | ok g =>
        by_cases hk : isUintKind (Indirect f.value).rv.kind <;>
          simp [Field.SetUint, h, hk, hfield]

/-- C10: on an exported, settable field whose (indirected) target kind
is a valid kind, `Set(nil)` boxes the nil as the invalid value, whose
kind `Invalid` never matches, so the call returns the recoverable
wrong-kind error — it does not panic — and the field is unchanged. -/
theorem c10_set_nil (f : Field)
    (hx : f.IsExported = true) (hs : (Indirect f.value).CanSet = true)
    (hk : (Indirect f.value).rv.kind ≠ Kind.invalid) :
    (f.Set RVal.invalid).1 =
      SetOutcome.err (SetErr.wrongKind Kind.invalid (Indirect f.value).rv.kind) ∧
    (f.Set RVal.invalid).2 = f := by
  have hk2 : (derefOnce RVal.invalid).kind ≠ (Indirect f.value).rv.kind :=
    fun e => hk e.symm
  rw [set_wrongKind f RVal.invalid hx hs hk2]
  exact ⟨rfl, rfl⟩

/-- C10 witness: `Set(nil)` on an exported, settable `bool` field. -/
theorem c10_witness :
    c10f.IsExported = true ∧ (Indirect c10f.value).CanSet = true ∧
    (Indirect c10f.value).rv.kind ≠ Kind.invalid ∧
    (c10f.Set RVal.invalid).1 =
      SetOutcome.err (SetErr.wrongKind Kind.invalid Kind.bool) ∧
    (c10f.Set RVal.invalid).2 = c10f :=
  ⟨by decide, by decide, by decide,
   (c10_set_nil c10f (by decide) (by decide) (by decide)).1,
   (c10_set_nil c10f (by decide) (by decide) (by decide)).2⟩

end Structs
